import Mathlib

/-!
Shallow embedding of the VowMUD authorization core, translated from
`src/core/authorization.py` together with the session/registry types it
relies on (`src/core/user.py`, `src/core/managers/user_manager.py`,
`src/core/database.py`).

Modelling conventions:
* Decoded text is a list of characters (`Str`).  A chunk read from the
  transport is modelled after utf-8 decoding; the empty read `b` + two quote
  marks (orderly close) is the empty list.
* Python `str.rstrip()` and the regex class `\s` use the same whitespace
  predicate (CPython Py_UNICODE_ISSPACE); `isSpace` enumerates that set of
  code points.
* The external collaborators (sqlite credential store, bcrypt, the session
  registry held by the user manager) enter through an explicit environment
  `Env`.  `query_table` applied to the two SELECT statements of the source
  is modelled by list lookups over the rows of the users table, and
  `bcrypt.checkpw` / `bcrypt.hashpw` / `bcrypt.gensalt` are abstract
  functions supplied by the environment.
* Handlers are async functions in the source; awaiting only sequences the
  transport reads, so a handler is embedded as a pure function taking the
  remaining input script (the list of chunks successive reads will return)
  and returning it with the consumed chunk removed.  Transport writes and
  credential-store operations are recorded in an event list, in order.
* The source handler `_state_new_password_process` returns the bare string
  error_state (not a pair) on a zero-length read; `HandlerResult.bare`
  models that.  `_state_error` returns `(None, pkg)`; `HandlerResult.pairNone`
  models that.  `AuthStateMachine.run` unpacking a non-pair raises
  ValueError, and looking up a missing key (including None) in the handler
  dict raises KeyError; both are modelled by `RunResult.crashed`.
-/

namespace VowMUD

/-- Decoded text: a list of unicode characters. -/
abbrev Str := List Char

/-- Whitespace predicate of CPython (Py_UNICODE_ISSPACE), used both by
`str.rstrip()` with no argument and by the regex class `\s` on `str`
patterns. -/
def isSpace (c : Char) : Bool :=
  let n := c.toNat
  (0x09 ≤ n && n ≤ 0x0d) || (0x1c ≤ n && n ≤ 0x1f) || n = 0x20 ||
  n = 0x85 || n = 0xa0 || n = 0x1680 || (0x2000 ≤ n && n ≤ 0x200a) ||
  n = 0x2028 || n = 0x2029 || n = 0x202f || n = 0x205f || n = 0x3000

/-- Python `str.rstrip()`: remove trailing whitespace characters. -/
def rstrip (l : Str) : Str :=
  (l.reverse.dropWhile isSpace).reverse

/-- Whether the string contains a whitespace character: `re.search` of the
class `\s` succeeds. -/
def containsSpace (l : Str) : Bool :=
  l.any isSpace

/-- Whether the first character is an ASCII digit: `re.search` anchored
pattern `^[0-9]` succeeds. -/
def startsWithDigit : Str → Bool
  | [] => false
  | c :: _ => c.isDigit

/-- Scan for the regex fragment `.*m` from a fixed start: succeeds when the
letter m occurs before any newline (`.` does not match a newline). -/
def scanToM : Str → Bool
  | [] => false
  | c :: cs => if c = 'm' then true else if c = '\n' then false else scanToM cs

/-- Whether the regex `\\033\[.*m` matches at the head of the string: a
literal backslash, the three characters 033, a left bracket, then `.*m`. -/
def ansiLiteralAt : Str → Bool
  | '\\' :: '0' :: '3' :: '3' :: '[' :: rest => scanToM rest
  | _ => false

/-- Python `re.search` of the source pattern `\\033\[.*m`: the pattern
matches at some position of the string.  Note the doubled backslash: the
raw-string pattern matches a literal backslash character followed by the
text 033[, not the escape character 0x1b. -/
def ansiLiteralSearch : Str → Bool
  | [] => false
  | c :: cs => ansiLiteralAt (c :: cs) || ansiLiteralSearch cs

/-- Modelled from the spec: the raw text matches an ANSI escape-sequence
pattern ESC [ ... m — an actual escape character 0x1b, a left bracket, then
any characters up to a letter m on the same line.  This is the pattern the
spec (and claims C5/C7) describe; it is compared against the source regex
`\\033\[.*m` embedded above. -/
def escAnsiAt : Str → Bool
  | '\x1b' :: '[' :: rest => scanToM rest
  | _ => false

/-- Modelled from the spec: `re.search` style scan for an actual ANSI
escape sequence ESC [ ... m anywhere in the string. -/
def escAnsiSearch : Str → Bool
  | [] => false
  | c :: cs => escAnsiAt (c :: cs) || escAnsiSearch cs

/-- `SimpleAuth` dataclass of the source: login-path credential draft. -/
structure SimpleAuth where
  account_name : Str
  password : Str
deriving DecidableEq

/-- `AccountCreation` dataclass of the source: registration credential
draft. -/
structure AccountCreation where
  account_name : Str
  password : Str
  real_name : Str
deriving DecidableEq

/-- The `input_tracker` field of `UserAuthPackage`: initialized to None and
later holding either a `SimpleAuth` or an `AccountCreation`. -/
inductive InputTracker where
  | nothing
  | simple (a : SimpleAuth)
  | creation (a : AccountCreation)
deriving DecidableEq

/-- Read the account_name attribute of the live draft.  On `nothing`
(Python None) the source would raise AttributeError; every state that reads
the field is only reached after the tracker has been initialized, so the
placeholder empty string is never observable on the flows of the machine. -/
def InputTracker.account_name : InputTracker → Str
  | .nothing => []
  | .simple a => a.account_name
  | .creation a => a.account_name

/-- Read the password attribute of the live draft (placeholder on `nothing`
as for `account_name`). -/
def InputTracker.password : InputTracker → Str
  | .nothing => []
  | .simple a => a.password
  | .creation a => a.password

/-- Read the real_name attribute of the live draft (placeholder on
`nothing` and on the login shape, which lacks the attribute in the source;
only the registration flow reads it). -/
def InputTracker.real_name : InputTracker → Str
  | .nothing => []
  | .simple _ => []
  | .creation a => a.real_name

/-- Assign the account_name attribute of the live draft. -/
def InputTracker.set_account_name : InputTracker → Str → InputTracker
  | .nothing, _ => .nothing
  | .simple a, v => .simple { a with account_name := v }
  | .creation a, v => .creation { a with account_name := v }

/-- Assign the password attribute of the live draft. -/
def InputTracker.set_password : InputTracker → Str → InputTracker
  | .nothing, _ => .nothing
  | .simple a, v => .simple { a with password := v }
  | .creation a, v => .creation { a with password := v }

/-- Assign the real_name attribute of the live draft (no-op placeholders
outside the registration shape, unreachable on the machine flows). -/
def InputTracker.set_real_name : InputTracker → Str → InputTracker
  | .nothing, _ => .nothing
  | .simple a, _ => .simple a
  | .creation a, v => .creation { a with real_name := v }

/-- `User` of `src/core/user.py`, restricted to the fields the
authorization core touches (the stream writer and room fields are
irrelevant here). -/
structure User where
  account_name : Str
  authorized : Bool
deriving DecidableEq

/-- `UserAuthPackage` of the source: per-connection authorization state. -/
structure UserAuthPackage where
  user_object : User
  input_tracker : InputTracker
  user_login_attempts : Nat
deriving DecidableEq

/-- `UserAuthPackage.__init__`: tracker None, zero login attempts. -/
def UserAuthPackage.init (user : User) : UserAuthPackage :=
  ⟨user, .nothing, 0⟩

/-- One row of the sqlite users table (`src/db/init_db.py` schema:
account_name, real_name, password). -/
structure UserRow where
  account_name : Str
  real_name : Str
  password : Str
deriving DecidableEq

/-- Environment of external collaborators: the credential store rows, the
account names currently registered in the user manager, and the bcrypt
primitives. -/
structure Env where
  users_table : List UserRow
  online_users : List Str
  checkpw : Str → Str → Bool
  hashpw : Str → Str → Str
  gensalt : Str

/-- Rows returned by `query_table` on
SELECT account_name FROM users WHERE account_name=?. -/
def query_account_name_rows (env : Env) (name : Str) : List Str :=
  (env.users_table.filter (fun r => r.account_name == name)).map
    (fun r => r.account_name)

/-- Rows returned by `query_table` on
SELECT password FROM users WHERE account_name=?. -/
def query_account_password_rows (env : Env) (name : Str) : List Str :=
  (env.users_table.filter (fun r => r.account_name == name)).map
    (fun r => r.password)

/-- `UserManager.is_logged_in`: whether a registered user carries the
account name. -/
def is_logged_in (env : Env) (name : Str) : Bool :=
  env.online_users.contains name

/-- Observable side effects of a handler, in execution order: transport
writes of rendered text blocks, credential-store queries, bcrypt
comparisons, and credential-store inserts. -/
inductive Event where
  | write (block : String)
  | query (param : Str)
  | checkpw (password hash : Str)
  | insert (account_name real_name password : Str)
deriving DecidableEq

/-- Whether an event touches the credential store (a query, a stored-hash
comparison, or an insert), as opposed to a transport write. -/
def Event.isStoreOp : Event → Bool
  | .write _ => false
  | .query _ => true
  | .checkpw _ _ => true
  | .insert _ _ _ => true

/-- Value returned by a state handler.  The source convention is the pair
(transition name, package); `bare` records the one handler branch that
returns a lone string, and `pairNone` the error terminal returning
(None, package). -/
inductive HandlerResult where
  | pair (next : String) (pkg : UserAuthPackage)
  | bare (next : String)
  | pairNone (pkg : UserAuthPackage)
deriving DecidableEq

/-- The not-yet-consumed chunks the transport reads will return; an
exhausted script models a closed connection (every further read returns the
empty chunk). -/
abbrev Script := List Str

/-- A state handler: environment, package and remaining script in; result,
remaining script and emitted events out. -/
abbrev Handler := Env → UserAuthPackage → Script → HandlerResult × Script × List Event

/-- One `input_reader.read(100)`: the next chunk, or the empty chunk once
the script is exhausted (closed connection). -/
def read1 (script : Script) : Str × Script :=
  (script.headD [], script.tail)

/-- `_state_login_title`: send the title block, log, advance. -/
def _state_login_title : Handler := fun _ pkg script =>
  (.pair "displayed_login_title" pkg, script, [Event.write "000000"])

/-- `_state_login_prompt`: send the login prompt block, advance. -/
def _state_login_prompt : Handler := fun _ pkg script =>
  (.pair "prompted_for_login" pkg, script, [Event.write "000001"])

/-- `_state_login_process`: read the login-prompt response.  Empty read
goes to the error state; the input c switches to account creation with a
fresh `AccountCreation`; any other input re-initializes the `SimpleAuth`
draft when it is not already fresh, stores the account name and counts the
attempt. -/
def _state_login_process : Handler := fun _ pkg script =>
  let (user_input, script) := read1 script
  if user_input = [] then
    (.pair "error_state" pkg, script, [])
  else
    let user_input := rstrip user_input
    if user_input = "c".data then
      (.pair "create_initial_state"
        { pkg with input_tracker := .creation ⟨[], [], []⟩ }, script, [])
    else
      let pkg :=
        if pkg.input_tracker ≠ .simple ⟨[], []⟩ then
          { pkg with input_tracker := .simple ⟨[], []⟩ }
        else pkg
      let pkg :=
        { pkg with
          input_tracker := pkg.input_tracker.set_account_name user_input,
          user_login_attempts := pkg.user_login_attempts + 1 }
      (.pair "login_processed" pkg, script, [])

/-- `_state_password_prompt`: send the password prompt block, advance. -/
def _state_password_prompt : Handler := fun _ pkg script =>
  (.pair "prompted_for_password" pkg, script, [Event.write "000002"])

/-- `_state_password_process`: read the password-prompt response.  Empty
read goes to the error state; otherwise the stripped input is stored into
the draft password. -/
def _state_password_process : Handler := fun _ pkg script =>
  let (user_input, script) := read1 script
  if user_input = [] then
    (.pair "error_state" pkg, script, [])
  else
    (.pair "password_processed"
      { pkg with input_tracker := pkg.input_tracker.set_password (rstrip user_input) },
      script, [])

/-- Shared tail of `_state_validate` for the
not valid_account_name or not valid_password case: at most 4 attempts
returns to the login flow, otherwise the error state. -/
def validateRetryOrError (pkg : UserAuthPackage) (script : Script)
    (events : List Event) : HandlerResult × Script × List Event :=
  if pkg.user_login_attempts ≤ 4 then
    (.pair "displayed_login_title" pkg, script, events ++ [Event.write "000009"])
  else
    (.pair "error_state" pkg, script, events ++ [Event.write "000010"])

/-- `_state_validate`: reject when the account is already online; otherwise
look the account up, compare the password hash when a row exists, and
either advance to validated or retry/fail depending on the attempt count.
The event list records exactly the store operations the source performs on
each branch (no query before the already-online rejection; the password
query and bcrypt comparison only when the account-name query returned
rows). -/
def _state_validate : Handler := fun env pkg script =>
  let name := pkg.input_tracker.account_name
  if is_logged_in env name then
    (.pair "error_state" pkg, script, [Event.write "000008"])
  else
    if query_account_name_rows env name ≠ [] then
      let stored := (query_account_password_rows env name).headD []
      let events := [Event.query name, Event.query name,
        Event.checkpw pkg.input_tracker.password stored]
      if env.checkpw pkg.input_tracker.password stored then
        (.pair "validated" pkg, script, events)
      else
        validateRetryOrError pkg script events
    else
      validateRetryOrError pkg script [Event.query name]

/-- `_state_authorized`: set the user authorized and bind the validated
account name onto the user object. -/
def _state_authorized : Handler := fun _ pkg script =>
  (.pair "authorized"
    { pkg with user_object :=
      { pkg.user_object with
        authorized := true,
        account_name := pkg.input_tracker.account_name } }, script, [])

/-- `_state_new_account_prompt`: send the new-account-name prompt block. -/
def _state_new_account_prompt : Handler := fun _ pkg script =>
  (.pair "prompted_for_new_account_name" pkg, script, [Event.write "000003"])

/-- `_state_new_account_process`: read the candidate account name.  Empty
read goes to the error state; an existing name, a bad length, a leading
digit or whitespace, or a match of the literal pattern `\\033\[.*m`
re-enters the account-name prompt; otherwise the name is stored and the
flow advances. -/
def _state_new_account_process : Handler := fun env pkg script =>
  let (user_input, script) := read1 script
  if user_input = [] then
    (.pair "error_state" pkg, script, [])
  else
    let user_input := rstrip user_input
    if query_account_name_rows env user_input ≠ [] then
      (.pair "create_initial_state" pkg, script,
        [Event.query user_input, Event.write "000017"])
    else if user_input.length < 4 ∨ 20 < user_input.length then
      (.pair "create_initial_state" pkg, script,
        [Event.query user_input, Event.write "000011"])
    else if startsWithDigit user_input ∨ containsSpace user_input then
      (.pair "create_initial_state" pkg, script,
        [Event.query user_input, Event.write "000012"])
    else if ansiLiteralSearch user_input then
      (.pair "create_initial_state" pkg, script,
        [Event.query user_input, Event.write "000013"])
    else
      (.pair "new_account_name_processed"
        { pkg with input_tracker := pkg.input_tracker.set_account_name user_input },
        script, [Event.query user_input])

/-- `_state_real_name_prompt`: send the real-name prompt block. -/
def _state_real_name_prompt : Handler := fun _ pkg script =>
  (.pair "prompted_for_real_name" pkg, script, [Event.write "000004"])

/-- `_state_real_name_process`: read the real name.  Empty read goes to the
error state; otherwise the stripped input is stored. -/
def _state_real_name_process : Handler := fun _ pkg script =>
  let (user_input, script) := read1 script
  if user_input = [] then
    (.pair "error_state" pkg, script, [])
  else
    (.pair "real_name_processed"
      { pkg with input_tracker := pkg.input_tracker.set_real_name (rstrip user_input) },
      script, [])

/-- `_state_new_password_prompt`: send the new-password prompt block. -/
def _state_new_password_prompt : Handler := fun _ pkg script =>
  (.pair "prompted_for_new_password" pkg, script, [Event.write "000005"])

/-- `_state_new_password_process`: read the candidate password.  On an
empty read the source returns the bare string error_state instead of a
(state, package) pair — transcribed verbatim as `HandlerResult.bare`.  A
bad length or a whitespace character returns to real_name_processed;
otherwise the password is stored. -/
def _state_new_password_process : Handler := fun _ pkg script =>
  let (user_input, script) := read1 script
  if user_input = [] then
    (.bare "error_state", script, [])
  else
    let user_input := rstrip user_input
    if user_input.length < 10 ∨ 30 < user_input.length then
      (.pair "real_name_processed" pkg, script, [Event.write "000014"])
    else if containsSpace user_input then
      (.pair "real_name_processed" pkg, script, [Event.write "000015"])
    else
      (.pair "new_password_processed"
        { pkg with input_tracker := pkg.input_tracker.set_password user_input },
        script, [])

/-- `_state_reenter_new_password_prompt`: send the confirm-password prompt
block. -/
def _state_reenter_new_password_prompt : Handler := fun _ pkg script =>
  (.pair "prompted_for_reenter_new_password" pkg, script, [Event.write "000006"])

/-- `_state_reenter_new_password_process`: read the confirmation.  Empty
read goes to the error state; a mismatch with the stored draft password
returns to real_name_processed; otherwise the flow advances. -/
def _state_reenter_new_password_process : Handler := fun _ pkg script =>
  let (user_input, script) := read1 script
  if user_input = [] then
    (.pair "error_state" pkg, script, [])
  else
    let user_input := rstrip user_input
    if pkg.input_tracker.password ≠ user_input then
      (.pair "real_name_processed" pkg, script, [Event.write "000016"])
    else
      (.pair "reenter_new_password_processed" pkg, script, [])

/-- `_state_create_new_account`: hash the password and the real name with
one fresh salt and insert the new account row. -/
def _state_create_new_account : Handler := fun env pkg script =>
  let salt := env.gensalt
  let hashed_password := env.hashpw pkg.input_tracker.password salt
  let hashed_real_name := env.hashpw pkg.input_tracker.real_name salt
  (.pair "new_account_created" pkg, script,
    [Event.insert pkg.input_tracker.account_name hashed_real_name hashed_password])

/-- `_state_inform_of_login`: send the account-created block and loop back
to the login flow. -/
def _state_inform_of_login : Handler := fun _ pkg script =>
  (.pair "auth_initial_state" pkg, script, [Event.write "000007"])

/-- `_state_error`: set the user unauthorized and return (None, package). -/
def _state_error : Handler := fun _ pkg script =>
  (.pairNone
    { pkg with user_object := { pkg.user_object with authorized := false } },
    script, [])

/-- `AuthStateMachine`: the handler dictionary (a registered value may
itself be None, as for the authorized terminal), the end-state list, and
the optional start state. -/
structure AuthStateMachine where
  handlers : String → Option (Option Handler)
  end_states : List String
  start_state : Option String

/-- `AuthStateMachine.__init__`: empty dictionary, empty end-state list, no
start state. -/
def AuthStateMachine.init : AuthStateMachine :=
  ⟨fun _ => none, [], none⟩

/-- `AuthStateMachine.add_state`: bind the handler under the name
(overwriting any previous binding) and, when the end_state flag is set,
append the name to the end-state list.  The source default for the flag is
False; every call site below passes it explicitly. -/
def AuthStateMachine.add_state (m : AuthStateMachine) (name : String)
    (handler : Option Handler) (end_state : Bool) : AuthStateMachine :=
  { m with
    handlers := fun k => if k = name then some handler else m.handlers k,
    end_states := if end_state then m.end_states ++ [name] else m.end_states }

/-- `AuthStateMachine.set_start`. -/
def AuthStateMachine.set_start (m : AuthStateMachine) (name : String) :
    AuthStateMachine :=
  { m with start_state := some name }

/-- `AuthStateMachine.setup`: the transition table of the source, verbatim,
followed by setting the start state. -/
def AuthStateMachine.setup (m : AuthStateMachine) : AuthStateMachine :=
  (((((((((((((((((((m.add_state "auth_initial_state" (some _state_login_title) false
    ).add_state "displayed_login_title" (some _state_login_prompt) false
    ).add_state "prompted_for_login" (some _state_login_process) false
    ).add_state "login_processed" (some _state_password_prompt) false
    ).add_state "prompted_for_password" (some _state_password_process) false
    ).add_state "password_processed" (some _state_validate) false
    ).add_state "validated" (some _state_authorized) false
    ).add_state "authorized" none true
    ).add_state "create_initial_state" (some _state_new_account_prompt) false
    ).add_state "prompted_for_new_account_name" (some _state_new_account_process) false
    ).add_state "new_account_name_processed" (some _state_real_name_prompt) false
    ).add_state "prompted_for_real_name" (some _state_real_name_process) false
    ).add_state "real_name_processed" (some _state_new_password_prompt) false
    ).add_state "prompted_for_new_password" (some _state_new_password_process) false
    ).add_state "new_password_processed" (some _state_reenter_new_password_prompt) false
    ).add_state "prompted_for_reenter_new_password" (some _state_reenter_new_password_process) false
    ).add_state "reenter_new_password_processed" (some _state_create_new_account) false
    ).add_state "new_account_created" (some _state_inform_of_login) false
    ).add_state "error_state" (some _state_error) true
    ).set_start "auth_initial_state"

/-- The machine the connection handler builds: a fresh engine with `setup`
applied. -/
def auth_machine : AuthStateMachine :=
  AuthStateMachine.init.setup

/-- Outcome of `AuthStateMachine.run`: the loop breaks on a terminal state
(keeping the final package, the unread script, and the accumulated events),
raises (ValueError unpacking a bare string, KeyError on a missing handler
key, TypeError calling a None handler), or exceeds the modelling fuel. -/
inductive RunResult where
  | finished (final : String) (pkg : UserAuthPackage) (script : Script)
      (events : List Event)
  | crashed
  | outOfFuel
deriving DecidableEq

/-- The loop body of `AuthStateMachine.run`: call the current handler,
break when the returned state is terminal, otherwise look up the next
handler and continue.  A bare-string result crashes the tuple unpacking; a
(None, pkg) result passes the terminal test (None is not among the string
end states) and then crashes the dictionary lookup; a registered None
handler crashes when called. -/
def AuthStateMachine.runAux (m : AuthStateMachine) (env : Env) :
    Nat → Handler → UserAuthPackage → Script → List Event → RunResult
  | 0, _, _, _, _ => .outOfFuel
  | Nat.succ fuel, handler, pkg, script, events =>
    match handler env pkg script with
    | (.bare _, _, _) => .crashed
    | (.pairNone _, _, _) => .crashed
    | (.pair new_state pkg, script, evs) =>
      if new_state ∈ m.end_states then
        .finished new_state pkg script (events ++ evs)
      else
        match m.handlers new_state with
        | none => .crashed
        | some none => .crashed
        | some (some h) => m.runAux env fuel h pkg script (events ++ evs)

/-- `AuthStateMachine.run`: resolve the start handler and enter the loop.
A missing start state or a start name absent from the dictionary raises
KeyError; a registered None start handler raises when first called. -/
def AuthStateMachine.run (m : AuthStateMachine) (env : Env) (fuel : Nat)
    (pkg : UserAuthPackage) (script : Script) : RunResult :=
  match m.start_state with
  | none => .crashed
  | some st =>
    match m.handlers st with
    | none => .crashed
    | some none => .crashed
    | some (some h) => m.runAux env fuel h pkg script []

/-- The terminal state of a finished run. -/
def RunResult.finalState : RunResult → Option String
  | .finished st _ _ _ => some st
  | _ => none

/-- The final package of a finished run. -/
def RunResult.finalPkg : RunResult → Option UserAuthPackage
  | .finished _ pkg _ _ => some pkg
  | _ => none

/-- A closed-over-nothing environment for concrete evaluations: empty
credential store, nobody online, bcrypt comparison always false. -/
def envEmpty : Env :=
  ⟨[], [], fun _ _ => false, fun a _ => a, []⟩

/-- Environment with one stored account alice whose stored hash verifies
exactly against the text pw (bcrypt modelled as plain comparison for the
concrete run). -/
def envAlice : Env :=
  ⟨[⟨"alice".data, "Alice".data, "pw".data⟩], [],
    fun p h => p == h, fun a _ => a, []⟩

/-- A fresh unauthorized user as `create_user` builds it. -/
def userFresh : User :=
  ⟨[], false⟩

/-- A registration-path package fixture: creation draft with the account
name and real name collected, password not yet stored. -/
def pkgReg : UserAuthPackage :=
  ⟨userFresh, .creation ⟨"newuser1".data, [], "Real Name".data⟩, 0⟩

/-- A registration-path package fixture with a stored candidate password,
as the confirm step sees it. -/
def pkgReg2 : UserAuthPackage :=
  ⟨userFresh, .creation ⟨"newuser1".data, "longenoughpassword".data, "Real Name".data⟩, 0⟩

/-- A registration-path package fixture with an entirely fresh creation
draft, as the account-name step sees it. -/
def pkgRegFresh : UserAuthPackage :=
  ⟨userFresh, .creation ⟨[], [], []⟩, 0⟩

/-- An account-name input carrying an actual ANSI escape sequence: the
escape character 0x1b, a left bracket, the digits 31, the letter m, then
three ordinary letters. -/
def escInput : Str :=
  ['\x1b', '[', '3', '1', 'm', 'X', 'Y', 'Z']

/-- An account-name input carrying the harmless literal seven characters
a backslash 0 3 3 [ m — no actual escape character anywhere. -/
def litInput : Str :=
  ['a', '\\', '0', '3', '3', '[', 'm']

/-- The authorized flag of the package a handler result carries (none for
the bare-string result, which carries no package). -/
def HandlerResult.pkgAuthorized : HandlerResult → Option Bool
  | .pair _ pkg => some pkg.user_object.authorized
  | .bare _ => none
  | .pairNone pkg => some pkg.user_object.authorized

/-- C1.  The claim says a run reaching the error terminal executes the
error-state flag-setting action and hence leaves the authorized flag false.
In the code `run` breaks as soon as a handler returns a state in the
end-state list, before ever invoking that state's handler, so
`_state_error` never executes: a run entered with the authorized flag true
whose first read returns the empty chunk finishes at error_state with the
flag still true, even though the registered `_state_error` handler, had it
been invoked, would have cleared the flag on any input. -/
theorem C1_error_terminal_action_never_executes :
    (auth_machine.run envEmpty 10 ⟨⟨[], true⟩, .nothing, 0⟩ []).finalState =
      some "error_state" ∧
    (auth_machine.run envEmpty 10 ⟨⟨[], true⟩, .nothing, 0⟩ []).finalPkg.map
      (fun p => p.user_object.authorized) = some true ∧
    (∀ env pkg script,
      (_state_error env pkg script).1.pkgAuthorized = some false) := by
  refine ⟨by decide, by decide, fun env pkg script => rfl⟩

/-- C2.  The claim says every registration-path read handler returns a
well-formed (nextState, session) pair naming error_state on a zero-length
read.  Three of the four do, but `_state_new_password_process` returns the
bare string error_state, so the engine's tuple unpacking crashes: a run
that enters registration, passes the account-name and real-name steps and
then hits a zero-length read at the new-password prompt crashes instead of
finishing at the error terminal. -/
theorem C2_new_password_zero_read_returns_bare_string :
    (∀ env pkg script,
      (_state_new_account_process env pkg ([] :: script)).1 = .pair "error_state" pkg) ∧
    (∀ env pkg script,
      (_state_real_name_process env pkg ([] :: script)).1 = .pair "error_state" pkg) ∧
    (∀ env pkg script,
      (_state_reenter_new_password_process env pkg ([] :: script)).1 = .pair "error_state" pkg) ∧
    (∀ env pkg script,
      (_state_new_password_process env pkg ([] :: script)).1 = .bare "error_state") ∧
    auth_machine.run envEmpty 20 (UserAuthPackage.init userFresh)
      ["c".data, "newuser1".data, "Real Name".data] = .crashed := by
  refine ⟨fun env pkg script => rfl, fun env pkg script => rfl,
    fun env pkg script => rfl, fun env pkg script => rfl, by decide⟩

/-- C5.  The claim says a registration account name whose raw text
contains an actual ANSI escape sequence (escape character 0x1b, a left
bracket, then any text and the letter m) is rejected.  The source regex
`\\033\[.*m` matches only the literal backslash text, never the 0x1b
character, so the guard does not fire: the concrete input ESC [ 3 1 m X Y Z
matches the spec's escape pattern yet is accepted, stored as the account
name, and the flow advances to the real-name stage. -/
theorem C5_actual_escape_sequence_is_accepted :
    escAnsiSearch escInput = true ∧
    (_state_new_account_process envEmpty pkgRegFresh [escInput]).1 =
      .pair "new_account_name_processed"
        ⟨userFresh, .creation ⟨escInput, [], []⟩, 0⟩ := by
  constructor
  · decide
  · decide

/-- C7.  The claim says every input of length 4 to 20, not starting with a
digit, without whitespace, without an ANSI escape sequence and not
colliding with a stored account is accepted.  The concrete input
a backslash 0 3 3 [ m satisfies all of those conditions (in particular it
contains no actual escape character), yet the source regex `\\033\[.*m`
matches its literal backslash text, so the step rejects it and re-enters
the account-name prompt instead of advancing. -/
theorem C7_benign_literal_backslash_text_is_rejected :
    litInput.length = 7 ∧
    startsWithDigit litInput = false ∧
    containsSpace litInput = false ∧
    escAnsiSearch litInput = false ∧
    query_account_name_rows envEmpty litInput = [] ∧
    (_state_new_account_process envEmpty pkgRegFresh [litInput]).1 =
      .pair "create_initial_state" pkgRegFresh := by
  refine ⟨by decide, by decide, by decide, by decide, by decide, by decide⟩

/-- C3 counterexample.  On a 3-character candidate password the machine
transitions to the state real_name_processed, but the handler registered
for that state is `_state_new_password_prompt`, and that handler is not the
real-name prompt handler: the flow re-collects the password, not the real
name, contradicting the claim. -/
theorem C3_counterexample_password_prompt_not_real_name :
    (_state_new_password_process envEmpty pkgReg ["abc".data]).1 =
      .pair "real_name_processed" pkgReg ∧
    auth_machine.handlers "real_name_processed" =
      some (some _state_new_password_prompt) ∧
    _state_new_password_prompt ≠ _state_real_name_prompt := by
  refine ⟨by decide, rfl, fun h => ?_⟩
  exact absurd (congrFun (congrFun (congrFun h envEmpty) pkgReg) []) (by decide)

/-- C3 amended.  Whenever the candidate password fails a syntax rule
(length outside 10 to 30, or containing whitespace) or the confirmation
entry differs from the first entry, the machine transitions to the state
real_name_processed — whose registered handler is the new-password prompt,
so the flow re-collects the password; it does not return to the real-name
prompt (the handler registered for new_account_name_processed) nor to the
account-name prompt. -/
theorem C3_password_failures_reenter_password_stage :
    (∀ env pkg input script, input ≠ [] →
      ((rstrip input).length < 10 ∨ 30 < (rstrip input).length ∨
        containsSpace (rstrip input) = true) →
      ∃ events, _state_new_password_process env pkg (input :: script) =
        (.pair "real_name_processed" pkg, script, events)) ∧
    (∀ env pkg input script, input ≠ [] →
      pkg.input_tracker.password ≠ rstrip input →
      _state_reenter_new_password_process env pkg (input :: script) =
        (.pair "real_name_processed" pkg, script, [Event.write "000016"])) ∧
    auth_machine.handlers "real_name_processed" =
      some (some _state_new_password_prompt) ∧
    auth_machine.handlers "new_account_name_processed" =
      some (some _state_real_name_prompt) := by
  refine ⟨?_, ?_, rfl, rfl⟩
  · intro env pkg input script hne hbad
    simp only [_state_new_password_process, read1, List.headD_cons, List.tail_cons,
      if_neg hne]
    by_cases hlen : (rstrip input).length < 10 ∨ 30 < (rstrip input).length
    · exact ⟨[Event.write "000014"], by rw [if_pos hlen]⟩
    · have hsp : containsSpace (rstrip input) = true := by tauto
      exact ⟨[Event.write "000015"], by rw [if_neg hlen, if_pos hsp]⟩
  · intro env pkg input script hne hmis
    simp only [_state_reenter_new_password_process, read1, List.headD_cons,
      List.tail_cons, if_neg hne, if_pos hmis]

/-- C3 witness: the amended theorem applied at a too-short password and at
a mismatched confirmation. -/
theorem C3_password_failures_witness :
    (∃ events, _state_new_password_process envEmpty pkgReg ["abc".data] =
      (.pair "real_name_processed" pkgReg, [], events)) ∧
    _state_reenter_new_password_process envEmpty pkgReg2 ["different".data] =
      (.pair "real_name_processed" pkgReg2, [], [Event.write "000016"]) :=
  ⟨C3_password_failures_reenter_password_stage.1 envEmpty pkgReg "abc".data []
      (by decide) (by decide),
    C3_password_failures_reenter_password_stage.2.1 envEmpty pkgReg2
      "different".data [] (by decide) (by decide)⟩

/-- Validation fails for the submitted credentials: the account is not
flagged online, and either the account-name query returns no row or the
bcrypt comparison against the first stored hash rejects. -/
def validationFails (env : Env) (pkg : UserAuthPackage) : Prop :=
  is_logged_in env pkg.input_tracker.account_name = false ∧
  (query_account_name_rows env pkg.input_tracker.account_name = [] ∨
    env.checkpw pkg.input_tracker.password
      ((query_account_password_rows env pkg.input_tracker.account_name).headD [])
      = false)

/-- C4.  Each account-name entry on the login path increments the attempt
counter exactly once; a failed validation with at most 4 attempts returns
to the banner state displayed_login_title, and a failed validation on the
5th attempt goes to the error terminal, so attempts 1 through 5 are
permitted and the 5th failure ends the session. -/
theorem C4_login_attempt_bound :
    (∀ env pkg input script, input ≠ [] → rstrip input ≠ "c".data →
      ∃ pkg2, _state_login_process env pkg (input :: script) =
          (.pair "login_processed" pkg2, script, []) ∧
        pkg2.user_login_attempts = pkg.user_login_attempts + 1) ∧
    (∀ env pkg script, validationFails env pkg →
      pkg.user_login_attempts ≤ 4 →
      (_state_validate env pkg script).1 = .pair "displayed_login_title" pkg) ∧
    (∀ env pkg script, validationFails env pkg →
      pkg.user_login_attempts = 5 →
      (_state_validate env pkg script).1 = .pair "error_state" pkg) := by
  refine ⟨?_, ?_, ?_⟩
  · intro env pkg input script hne hnc
    simp only [_state_login_process, read1, List.headD_cons, List.tail_cons,
      if_neg hne, if_neg hnc]
    by_cases hfresh : pkg.input_tracker ≠ InputTracker.simple ⟨[], []⟩ <;>
      simp [hfresh]
  · intro env pkg script hfail hle
    obtain ⟨hlog, hbad⟩ := hfail
    simp only [_state_validate, hlog, Bool.false_eq_true, if_false]
    rcases hbad with hrows | hpw
    · simp [hrows, validateRetryOrError, hle]
    · by_cases hrows : query_account_name_rows env pkg.input_tracker.account_name = []
      · simp [hrows, validateRetryOrError, hle]
      · rw [if_pos hrows, if_neg (by rw [hpw]; simp)]
        simp [validateRetryOrError, hle]
  · intro env pkg script hfail h5
    obtain ⟨hlog, hbad⟩ := hfail
    have hgt : ¬ pkg.user_login_attempts ≤ 4 := by omega
    simp only [_state_validate, hlog, Bool.false_eq_true, if_false]
    rcases hbad with hrows | hpw
    · simp [hrows, validateRetryOrError, hgt]
    · by_cases hrows : query_account_name_rows env pkg.input_tracker.account_name = []
      · simp [hrows, validateRetryOrError, hgt]
      · rw [if_pos hrows, if_neg (by rw [hpw]; simp)]
        simp [validateRetryOrError, hgt]

/-- A login-path package that entered the name alice, first attempt. -/
def pkgAttempt1 : UserAuthPackage :=
  ⟨userFresh, .simple ⟨"alice".data, "pw".data⟩, 1⟩

/-- A login-path package that entered the name alice, fifth attempt. -/
def pkgAttempt5 : UserAuthPackage :=
  ⟨userFresh, .simple ⟨"alice".data, "pw".data⟩, 5⟩

/-- C4 witness: the three parts applied at concrete inputs — an entry of
alice increments the counter, a first failed attempt re-enters the banner
state, and the fifth failed attempt reaches the error terminal. -/
theorem C4_login_attempt_bound_witness :
    (∃ pkg2, _state_login_process envEmpty pkgAttempt1 ["alice".data] =
        (.pair "login_processed" pkg2, [], []) ∧
      pkg2.user_login_attempts = pkgAttempt1.user_login_attempts + 1) ∧
    (_state_validate envEmpty pkgAttempt1 []).1 =
      .pair "displayed_login_title" pkgAttempt1 ∧
    (_state_validate envEmpty pkgAttempt5 []).1 = .pair "error_state" pkgAttempt5 :=
  ⟨C4_login_attempt_bound.1 envEmpty pkgAttempt1 "alice".data [] (by decide)
      (by decide),
    C4_login_attempt_bound.2.1 envEmpty pkgAttempt1 [] ⟨by decide, by decide⟩
      (by decide),
    C4_login_attempt_bound.2.2 envEmpty pkgAttempt5 [] ⟨by decide, by decide⟩
      (by decide)⟩

/-- C6.  When the registry reports the submitted account name as already
online, the validate step goes straight to the error terminal and its
event trace contains no credential-store operation: no account query and
no stored-hash comparison happens on that attempt. -/
theorem C6_duplicate_login_skips_credential_store :
    ∀ env pkg script,
      is_logged_in env pkg.input_tracker.account_name = true →
      _state_validate env pkg script =
        (.pair "error_state" pkg, script, [Event.write "000008"]) ∧
      ((_state_validate env pkg script).2.2.filter Event.isStoreOp) = [] := by
  intro env pkg script h
  refine ⟨by simp [_state_validate, h], by simp [_state_validate, h, Event.isStoreOp]⟩

/-- Environment in which alice is flagged online by the session registry
while the credential store also holds a row for alice. -/
def envAliceOnline : Env :=
  ⟨[⟨"alice".data, "Alice".data, "pw".data⟩], ["alice".data],
    fun p h => p == h, fun a _ => a, []⟩

/-- C6 witness: the theorem applied to a login attempt for alice while
alice is online. -/
theorem C6_duplicate_login_witness :
    _state_validate envAliceOnline pkgAttempt1 [] =
      (.pair "error_state" pkgAttempt1, [], [Event.write "000008"]) ∧
    ((_state_validate envAliceOnline pkgAttempt1 []).2.2.filter Event.isStoreOp) = [] :=
  C6_duplicate_login_skips_credential_store envAliceOnline pkgAttempt1 []
    (by decide)

/-- C8.  Registering the same state name twice leaves the engine as if only
the second registration had happened: the table maps the name to the second
handler, the whole handler table equals the singly-registered one, the
end-state list is unchanged in content (as a set of names), and the start
state is untouched. -/
theorem C8_add_state_twice_overwrites :
    ∀ (m : AuthStateMachine) (name : String) (h1 h2 : Option Handler) (b : Bool),
      ((m.add_state name h1 b).add_state name h2 b).handlers name = some h2 ∧
      ((m.add_state name h1 b).add_state name h2 b).handlers =
        (m.add_state name h2 b).handlers ∧
      (∀ x, x ∈ ((m.add_state name h1 b).add_state name h2 b).end_states ↔
        x ∈ (m.add_state name h2 b).end_states) ∧
      ((m.add_state name h1 b).add_state name h2 b).start_state =
        (m.add_state name h2 b).start_state := by
  intro m name h1 h2 b
  refine ⟨by simp [AuthStateMachine.add_state], funext fun k => ?_, fun x => ?_, rfl⟩
  · by_cases hk : k = name <;> simp [AuthStateMachine.add_state, hk]
  · cases b <;> simp [AuthStateMachine.add_state, List.mem_append]

/-- C9.  Whatever credential draft was live before, the login-input handler
installs a brand-new draft: choosing registration installs an all-empty
`AccountCreation`, and re-entering the login path installs a `SimpleAuth`
whose password is empty and whose account name is exactly the freshly
stripped input — no field of the previous draft survives into the new
one. -/
theorem C9_draft_replaced_wholesale :
    ∀ env pkg input script, input ≠ [] →
      (rstrip input = "c".data →
        _state_login_process env pkg (input :: script) =
          (.pair "create_initial_state"
            { pkg with input_tracker := .creation ⟨[], [], []⟩ }, script, [])) ∧
      (rstrip input ≠ "c".data →
        ∃ pkg2, _state_login_process env pkg (input :: script) =
            (.pair "login_processed" pkg2, script, []) ∧
          pkg2.input_tracker = .simple ⟨rstrip input, []⟩) := by
  intro env pkg input script hne
  constructor
  · intro hc
    simp only [_state_login_process, read1, List.headD_cons, List.tail_cons,
      if_neg hne, if_pos hc]
  · intro hnc
    simp only [_state_login_process, read1, List.headD_cons, List.tail_cons,
      if_neg hne, if_neg hnc]
    by_cases hfresh : pkg.input_tracker ≠ InputTracker.simple ⟨[], []⟩ <;>
      simp_all [InputTracker.set_account_name]

/-- A login-path package holding a filled previous draft, as a second
attempt sees it. -/
def pkgOldDraft : UserAuthPackage :=
  ⟨userFresh, .simple ⟨"olduser".data, "oldpass".data⟩, 1⟩

/-- C9 witness: starting from a filled draft, the input c installs a fresh
registration draft and the input alice installs a fresh login draft
carrying only the new name. -/
theorem C9_draft_replaced_witness :
    _state_login_process envEmpty pkgOldDraft ["c".data] =
      (.pair "create_initial_state"
        { pkgOldDraft with input_tracker := .creation ⟨[], [], []⟩ }, [], []) ∧
    (∃ pkg2, _state_login_process envEmpty pkgOldDraft ["alice".data] =
        (.pair "login_processed" pkg2, [], []) ∧
      pkg2.input_tracker = .simple ⟨rstrip "alice".data, []⟩) :=
  ⟨(C9_draft_replaced_wholesale envEmpty pkgOldDraft "c".data [] (by decide)).1
      (by decide),
    (C9_draft_replaced_wholesale envEmpty pkgOldDraft "alice".data [] (by decide)).2
      (by decide)⟩

/-- Reassigning the password never changes the stored account name. -/
@[simp]
theorem set_password_account_name (t : InputTracker) (v : Str) :
    (t.set_password v).account_name = t.account_name := by
  cases t <;> rfl

/-- Reassigning the real name never changes the stored account name. -/
@[simp]
theorem set_real_name_account_name (t : InputTracker) (v : Str) :
    (t.set_real_name v).account_name = t.account_name := by
  cases t <;> rfl

/-- After reassigning the account name, the stored account name differs
from any string that both the new value and the empty placeholder differ
from. -/
theorem set_account_name_ne (t : InputTracker) (v w : Str) (hv : v ≠ w)
    (hnil : ([] : Str) ≠ w) : (t.set_account_name v).account_name ≠ w := by
  cases t
  · exact hnil
  · exact hv
  · exact hv

/-- Invariant threaded through every run for C10: the live draft never
carries the account name c. -/
abbrev draft_ok (pkg : UserAuthPackage) : Prop :=
  pkg.input_tracker.account_name ≠ "c".data

/-- The state names registered by `setup`, in registration order. -/
def state_names : List String :=
  ["auth_initial_state", "displayed_login_title", "prompted_for_login",
   "login_processed", "prompted_for_password", "password_processed",
   "validated", "authorized", "create_initial_state",
   "prompted_for_new_account_name", "new_account_name_processed",
   "prompted_for_real_name", "real_name_processed",
   "prompted_for_new_password", "new_password_processed",
   "prompted_for_reenter_new_password", "reenter_new_password_processed",
   "new_account_created", "error_state"]

/-- A handler preserves `draft_ok`, hands over a user object whose account
name is not c whenever it transitions to the authorized terminal, and only
ever names registered states. -/
def handler_ok (h : Handler) : Prop :=
  ∀ env pkg script next pkg2,
    draft_ok pkg → (h env pkg script).1 = .pair next pkg2 →
    draft_ok pkg2 ∧ (next = "authorized" → pkg2.user_object.account_name ≠ "c".data) ∧
      next ∈ state_names

/-- The title handler neither touches the draft nor authorizes. -/
theorem handler_ok_login_title : handler_ok _state_login_title := by
  intro env pkg script next pkg2 hd h
  injection h with h1 h2
  subst h1; subst h2
  exact ⟨hd, fun hx => absurd hx (by decide), by decide⟩

/-- The login-prompt handler neither touches the draft nor authorizes. -/
theorem handler_ok_login_prompt : handler_ok _state_login_prompt := by
  intro env pkg script next pkg2 hd h
  injection h with h1 h2
  subst h1; subst h2
  exact ⟨hd, fun hx => absurd hx (by decide), by decide⟩

/-- The password-prompt handler neither touches the draft nor
authorizes. -/
theorem handler_ok_password_prompt : handler_ok _state_password_prompt := by
  intro env pkg script next pkg2 hd h
  injection h with h1 h2
  subst h1; subst h2
  exact ⟨hd, fun hx => absurd hx (by decide), by decide⟩

/-- The new-account prompt handler neither touches the draft nor
authorizes. -/
theorem handler_ok_new_account_prompt : handler_ok _state_new_account_prompt := by
  intro env pkg script next pkg2 hd h
  injection h with h1 h2
  subst h1; subst h2
  exact ⟨hd, fun hx => absurd hx (by decide), by decide⟩

/-- The real-name prompt handler neither touches the draft nor
authorizes. -/
theorem handler_ok_real_name_prompt : handler_ok _state_real_name_prompt := by
  intro env pkg script next pkg2 hd h
  injection h with h1 h2
  subst h1; subst h2
  exact ⟨hd, fun hx => absurd hx (by decide), by decide⟩

/-- The new-password prompt handler neither touches the draft nor
authorizes. -/
theorem handler_ok_new_password_prompt : handler_ok _state_new_password_prompt := by
  intro env pkg script next pkg2 hd h
  injection h with h1 h2
  subst h1; subst h2
  exact ⟨hd, fun hx => absurd hx (by decide), by decide⟩

/-- The confirm-password prompt handler neither touches the draft nor
authorizes. -/
theorem handler_ok_reenter_new_password_prompt :
    handler_ok _state_reenter_new_password_prompt := by
  intro env pkg script next pkg2 hd h
  injection h with h1 h2
  subst h1; subst h2
  exact ⟨hd, fun hx => absurd hx (by decide), by decide⟩

/-- The account-insert handler neither touches the draft nor authorizes. -/
theorem handler_ok_create_new_account : handler_ok _state_create_new_account := by
  intro env pkg script next pkg2 hd h
  injection h with h1 h2
  subst h1; subst h2
  exact ⟨hd, fun hx => absurd hx (by decide), by decide⟩

/-- The success-message handler neither touches the draft nor
authorizes. -/
theorem handler_ok_inform_of_login : handler_ok _state_inform_of_login := by
  intro env pkg script next pkg2 hd h
  injection h with h1 h2
  subst h1; subst h2
  exact ⟨hd, fun hx => absurd hx (by decide), by decide⟩

/-- The error handler returns (None, package), never a pair. -/
theorem handler_ok_error : handler_ok _state_error := by
  intro env pkg script next pkg2 hd h
  exact absurd h (by simp [_state_error])

/-- The login-input handler: every branch leaves a draft whose account
name is not c (the c input installs an empty registration draft, any other
input installs the stripped input, which is not c on that branch), and no
branch authorizes. -/
theorem handler_ok_login_process : handler_ok _state_login_process := by
  intro env pkg script next pkg2 hd h
  simp only [_state_login_process, read1] at h
  split_ifs at h with h1 h2 h3
  · injection h with e1 e2
    subst e1; subst e2
    exact ⟨hd, fun hx => absurd hx (by decide), by decide⟩
  · injection h with e1 e2
    subst e1; subst e2
    exact ⟨fun hx => List.noConfusion hx, fun hx => absurd hx (by decide), by decide⟩
  · injection h with e1 e2
    subst e1; subst e2
    exact ⟨set_account_name_ne (InputTracker.simple ⟨[], []⟩) _ _ h2 (by decide),
      fun hx => absurd hx (by decide), by decide⟩
  · injection h with e1 e2
    subst e1; subst e2
    exact ⟨set_account_name_ne pkg.input_tracker _ _ h2 (by decide),
      fun hx => absurd hx (by decide), by decide⟩

/-- The password-input handler only reassigns the draft password. -/
theorem handler_ok_password_process : handler_ok _state_password_process := by
  intro env pkg script next pkg2 hd h
  simp only [_state_password_process, read1] at h
  split_ifs at h with h1
  · injection h with e1 e2
    subst e1; subst e2
    exact ⟨hd, fun hx => absurd hx (by decide), by decide⟩
  · injection h with e1 e2
    subst e1; subst e2
    refine ⟨?_, fun hx => absurd hx (by decide), by decide⟩
    simpa [draft_ok] using hd

/-- The validate handler never mutates the package and never transitions
to the authorized terminal (only to error_state, validated or the banner
state). -/
theorem handler_ok_validate : handler_ok _state_validate := by
  intro env pkg script next pkg2 hd h
  simp only [_state_validate, validateRetryOrError] at h
  split_ifs at h with h1 h2 h3 h4 h5 <;>
    (injection h with e1 e2; subst e1; subst e2;
     exact ⟨hd, fun hx => absurd hx (by decide), by decide⟩)

/-- The authorizing handler transitions to the authorized terminal binding
the draft account name — which the invariant guarantees is not c — onto
the user object. -/
theorem handler_ok_authorized : handler_ok _state_authorized := by
  intro env pkg script next pkg2 hd h
  injection h with e1 e2
  subst e1; subst e2
  exact ⟨hd, fun _ => hd, by decide⟩

/-- The account-name handler: the accepting branch stores a name of length
at least 4, which cannot be the one-character name c; no branch
authorizes. -/
theorem handler_ok_new_account_process : handler_ok _state_new_account_process := by
  intro env pkg script next pkg2 hd h
  simp only [_state_new_account_process, read1] at h
  split_ifs at h with h1 h2 h3 h4 h5 <;>
    (injection h with e1 e2; subst e1; subst e2)
  · exact ⟨hd, fun hx => absurd hx (by decide), by decide⟩
  · exact ⟨hd, fun hx => absurd hx (by decide), by decide⟩
  · exact ⟨hd, fun hx => absurd hx (by decide), by decide⟩
  · exact ⟨hd, fun hx => absurd hx (by decide), by decide⟩
  · exact ⟨hd, fun hx => absurd hx (by decide), by decide⟩
  · refine ⟨set_account_name_ne pkg.input_tracker _ _ ?_ (by decide),
      fun hx => absurd hx (by decide), by decide⟩
    intro he
    exact h3 (Or.inl (by rw [he]; decide))

/-- The real-name handler only reassigns the draft real name. -/
theorem handler_ok_real_name_process : handler_ok _state_real_name_process := by
  intro env pkg script next pkg2 hd h
  simp only [_state_real_name_process, read1] at h
  split_ifs at h with h1
  · injection h with e1 e2
    subst e1; subst e2
    exact ⟨hd, fun hx => absurd hx (by decide), by decide⟩
  · injection h with e1 e2
    subst e1; subst e2
    refine ⟨?_, fun hx => absurd hx (by decide), by decide⟩
    simpa [draft_ok] using hd

/-- The new-password handler: the zero-read branch is a bare string, the
others keep or password-update the draft; no branch authorizes. -/
theorem handler_ok_new_password_process : handler_ok _state_new_password_process := by
  intro env pkg script next pkg2 hd h
  simp only [_state_new_password_process, read1] at h
  split_ifs at h with h1 h2 h3
  · injection h with e1 e2
    subst e1; subst e2
    exact ⟨hd, fun hx => absurd hx (by decide), by decide⟩
  · injection h with e1 e2
    subst e1; subst e2
    exact ⟨hd, fun hx => absurd hx (by decide), by decide⟩
  · injection h with e1 e2
    subst e1; subst e2
    refine ⟨?_, fun hx => absurd hx (by decide), by decide⟩
    simpa [draft_ok] using hd

/-- The confirm-password handler never mutates the package; no branch
authorizes. -/
theorem handler_ok_reenter_new_password_process :
    handler_ok _state_reenter_new_password_process := by
  intro env pkg script next pkg2 hd h
  simp only [_state_reenter_new_password_process, read1] at h
  split_ifs at h with h1 h2 <;>
    (injection h with e1 e2; subst e1; subst e2;
     exact ⟨hd, fun hx => absurd hx (by decide), by decide⟩)

/-- Every handler registered in the machine built by `setup` under a
registered state name satisfies `handler_ok`. -/
theorem auth_machine_handlers_ok :
    ∀ ns h, ns ∈ state_names → auth_machine.handlers ns = some (some h) →
      handler_ok h := by
  intro ns h hmem hh
  fin_cases hmem <;>
    first
    | exact Option.noConfusion (Option.some.inj hh)
    | (obtain rfl := Option.some.inj (Option.some.inj hh)
       first
       | exact handler_ok_login_title
       | exact handler_ok_login_prompt
       | exact handler_ok_login_process
       | exact handler_ok_password_prompt
       | exact handler_ok_password_process
       | exact handler_ok_validate
       | exact handler_ok_authorized
       | exact handler_ok_new_account_prompt
       | exact handler_ok_new_account_process
       | exact handler_ok_real_name_prompt
       | exact handler_ok_real_name_process
       | exact handler_ok_new_password_prompt
       | exact handler_ok_new_password_process
       | exact handler_ok_reenter_new_password_prompt
       | exact handler_ok_reenter_new_password_process
       | exact handler_ok_create_new_account
       | exact handler_ok_inform_of_login
       | exact handler_ok_error)

/-- Any run segment of the machine that finishes at the authorized
terminal, started from a `handler_ok` handler on a `draft_ok` package,
ends with a user account name other than c. -/
theorem runAux_never_authorizes_c :
    ∀ (fuel : Nat) (h : Handler) (env : Env) (pkg : UserAuthPackage)
      (script : Script) (events : List Event) (pkg2 : UserAuthPackage)
      (sc : Script) (ev : List Event),
      handler_ok h → draft_ok pkg →
      auth_machine.runAux env fuel h pkg script events =
        .finished "authorized" pkg2 sc ev →
      pkg2.user_object.account_name ≠ "c".data := by
  intro fuel
  induction fuel with
  | zero =>
    intro h env pkg script events pkg2 sc ev hok hd hrun
    exact absurd hrun (by simp [AuthStateMachine.runAux])
  | succ n ih =>
    intro h env pkg script events pkg2 sc ev hok hd hrun
    rw [AuthStateMachine.runAux] at hrun
    rcases hres : h env pkg script with ⟨r, sc2, ev2⟩
    rw [hres] at hrun
    cases r with
    | bare st => exact absurd hrun (by simp)
    | pairNone p => exact absurd hrun (by simp)
    | pair ns pkg3 =>
      dsimp only at hrun
      obtain ⟨hd3, hauth, hmem⟩ :=
        hok env pkg script ns pkg3 hd (by rw [hres])
      by_cases hterm : ns ∈ auth_machine.end_states
      · rw [if_pos hterm] at hrun
        injection hrun with e1 e2 e3 e4
        subst e2
        exact hauth e1
      · rw [if_neg hterm] at hrun
        cases hh : auth_machine.handlers ns with
        | none => rw [hh] at hrun; exact absurd hrun (by simp)
        | some o =>
          cases o with
          | none => rw [hh] at hrun; exact absurd hrun (by simp)
          | some h4 =>
            rw [hh] at hrun
            exact ih h4 env pkg3 sc2 (events ++ ev2) pkg2 sc ev
              (auth_machine_handlers_ok ns h4 hmem hh) hd3 hrun

/-- C10.  An input stripping to c always replaces the draft with a fresh
`RegistrationDraft` and transitions to the registration initial state,
leaving the attempt counter and every other package field untouched and
setting no account name; consequently no run of the machine started on a
fresh package can finish at the authorized terminal carrying the account
name c. -/
theorem C10_create_choice_never_authorizes_c :
    (∀ env pkg input script, input ≠ [] → rstrip input = "c".data →
      _state_login_process env pkg (input :: script) =
        (.pair "create_initial_state"
          { pkg with input_tracker := .creation ⟨[], [], []⟩ }, script, [])) ∧
    (∀ env fuel user script,
      (auth_machine.run env fuel (UserAuthPackage.init user) script).finalState =
        some "authorized" →
      (auth_machine.run env fuel (UserAuthPackage.init user) script).finalPkg.map
        (fun p => p.user_object.account_name) ≠ some "c".data) := by
  constructor
  · intro env pkg input script hne hc
    simp only [_state_login_process, read1, List.headD_cons, List.tail_cons,
      if_neg hne, if_pos hc]
  · intro env fuel user script hst hacc
    cases hr : auth_machine.run env fuel (UserAuthPackage.init user) script with
    | crashed => rw [hr] at hst; exact absurd hst (by simp [RunResult.finalState])
    | outOfFuel => rw [hr] at hst; exact absurd hst (by simp [RunResult.finalState])
    | finished st pkg2 sc ev =>
      rw [hr] at hst hacc
      simp only [RunResult.finalState, Option.some.injEq] at hst
      subst hst
      simp only [RunResult.finalPkg, Option.map_some', Option.some.injEq] at hacc
      have hrun : auth_machine.runAux env fuel _state_login_title
          (UserAuthPackage.init user) script [] =
          .finished "authorized" pkg2 sc ev := by
        rw [← hr]; rfl
      exact runAux_never_authorizes_c fuel _state_login_title env
        (UserAuthPackage.init user) script [] pkg2 sc ev
        handler_ok_login_title (fun hx => List.noConfusion hx) hrun hacc

/-- C10 witness: the first part applied to the input c followed by a
newline, and the second part applied to a concrete successful run — alice
logging in with the right password reaches the authorized terminal, and
the theorem yields that the authorized account name is not c. -/
theorem C10_create_choice_witness :
    _state_login_process envEmpty pkgOldDraft ["c\n".data] =
      (.pair "create_initial_state"
        { pkgOldDraft with input_tracker := .creation ⟨[], [], []⟩ }, [], []) ∧
    (auth_machine.run envAlice 12 (UserAuthPackage.init userFresh)
      ["alice".data, "pw".data]).finalPkg.map
        (fun p => p.user_object.account_name) ≠ some "c".data :=
  ⟨C10_create_choice_never_authorizes_c.1 envEmpty pkgOldDraft "c\n".data []
      (by decide) (by decide),
    C10_create_choice_never_authorizes_c.2 envAlice 12 userFresh
      ["alice".data, "pw".data] (by decide)⟩

end VowMUD
